import Mathlib

/-!
Verification of the Azure DevOps to Google Chat webhook relay
(netlify/functions/ado_webhook.py).

The Python module is shallowly embedded: JSON values become the inductive
type `Json`, Python dictionary access with `.get` becomes `pyGetD` (which,
like Python, raises `AttributeError` when the receiver is not a dict —
modelled with `Except String`), Python truthiness becomes `Json.truthy`,
and the two regular expressions used by the code are implemented as
explicit scanners with the same leftmost, lazy-quantifier semantics.
-/

set_option maxRecDepth 10000

namespace AdoWebhook

/-- A JSON value, as produced by json.loads in Python.  Python None (JSON
null) is `Json.null`. -/
inductive Json where
  | null : Json
  | bool : Bool → Json
  | num : Int → Json
  | str : String → Json
  | arr : List Json → Json
  | obj : List (String × Json) → Json

/-- Python truthiness of a JSON value: None, False, 0, empty string, empty
list and empty dict are falsy; everything else is truthy. -/
def Json.truthy : Json → Bool
  | .null => false
  | .bool b => b
  | .num n => n != 0
  | .str s => s != ""
  | .arr xs => !xs.isEmpty
  | .obj fs => !fs.isEmpty

/-- Python equality of a JSON value against a string literal: only a string
with the same characters compares equal. -/
def isStrEq : Json → String → Bool
  | .str t, s => t == s
  | _, _ => false

/-! ### String primitives

The Python string methods the module calls (split, strip, lower,
startswith, replace) are modelled by structural functions over the
character list of the string, so that every use computes by definitional
reduction.  strip and lower cover the ASCII range, which is all the
webhook traffic of this module carries. -/

/-- The list starts with the pattern. -/
def listStartsWith : List Char → List Char → Bool
  | _, [] => true
  | [], _ :: _ => false
  | c :: cs, p :: ps => c = p && listStartsWith cs ps

/-- Python s.startswith(p). -/
def pyStartsWith (s p : String) : Bool := listStartsWith s.data p.data

/-- The pattern occurs as a contiguous sublist. -/
def containsSubAux (pat : List Char) : List Char → Bool
  | [] => listStartsWith [] pat
  | c :: rest => listStartsWith (c :: rest) pat || containsSubAux pat rest

/-- Python s.split(sep) for a non-empty separator: every occurrence splits,
empty parts are kept.  The fuel is consumed one character at a time and a
split consumes the whole separator, so list length plus one suffices. -/
def splitOnAuxL : Nat → List Char → List Char → List Char → List (List Char)
  | 0, _, acc, _ => [acc.reverse]
  | fuel + 1, pat, acc, cs =>
    match cs with
    | [] => [acc.reverse]
    | c :: rest =>
      if listStartsWith cs pat then
        acc.reverse :: splitOnAuxL fuel pat [] (cs.drop pat.length)
      else splitOnAuxL fuel pat (c :: acc) rest

/-- Python s.split(sep), sep non-empty. -/
def pySplitOn (s sep : String) : List String :=
  (splitOnAuxL (s.data.length + 1) sep.data [] s.data).map String.mk

/-- Python s.replace(pat, rep), pat non-empty: left to right,
non-overlapping. -/
def replaceAuxL : Nat → List Char → List Char → List Char → List Char → List Char
  | 0, _, _, acc, cs => acc.reverse ++ cs
  | fuel + 1, pat, rep, acc, cs =>
    match cs with
    | [] => acc.reverse
    | c :: rest =>
      if listStartsWith cs pat then
        replaceAuxL fuel pat rep (rep.reverse ++ acc) (cs.drop pat.length)
      else replaceAuxL fuel pat rep (c :: acc) rest

/-- Python s.replace(pat, rep) for a non-empty pattern. -/
def pyReplace (s pat rep : String) : String :=
  String.mk (replaceAuxL (s.data.length + 1) pat.data rep.data [] s.data)

/-- An ASCII whitespace character, as stripped by Python str.strip. -/
def pyIsSpace (c : Char) : Bool :=
  c = ' ' || c = '\t' || c = '\n' || c = '\r' || c = Char.ofNat 11 || c = Char.ofNat 12

/-- Python s.strip(). -/
def pyStrip (s : String) : String :=
  String.mk (((s.data.dropWhile pyIsSpace).reverse.dropWhile pyIsSpace).reverse)

/-- Python lowercasing of one ASCII character. -/
def pyCharLower (c : Char) : Char :=
  if 'A' ≤ c && c ≤ 'Z' then Char.ofNat (c.toNat + 32) else c

/-- Python s.lower(). -/
def pyLower (s : String) : String := String.mk (s.data.map pyCharLower)

/-- Python `receiver.get(key, default)`: returns the value stored at `key`,
or `default` when the key is missing.  When the receiver is not a dict the
attribute lookup of `get` raises AttributeError, modelled as `.error`. -/
def pyGetD : Json → String → Json → Except String Json
  | .obj fs, k, d => .ok ((fs.lookup k).getD d)
  | _, _, _ => .error "AttributeError: get"

/-- The field stored at `key` when the value is a dict that carries it. -/
def Json.objField : Json → String → Option Json
  | .obj fs, k => fs.lookup k
  | _, _ => none

/-- An apostrophe character, used by the model of the Python repr of
strings. -/
def sq : String := "\x27"

mutual
/-- Model of Python repr for JSON values (str of a list or dict uses repr
of the elements; the model does not escape quotes inside strings, which no
value in this development contains). -/
def Json.pyRepr : Json → String
  | .null => "None"
  | .bool true => "True"
  | .bool false => "False"
  | .num n => toString n
  | .str s => sq ++ s ++ sq
  | .arr xs => "[" ++ pyReprArr xs ++ "]"
  | .obj fs => "\x7b" ++ pyReprObj fs ++ "\x7d"

def pyReprArr : List Json → String
  | [] => ""
  | [x] => x.pyRepr
  | x :: xs => x.pyRepr ++ ", " ++ pyReprArr xs

def pyReprObj : List (String × Json) → String
  | [] => ""
  | [(k, v)] => sq ++ k ++ sq ++ ": " ++ v.pyRepr
  | (k, v) :: xs => sq ++ k ++ sq ++ ": " ++ v.pyRepr ++ ", " ++ pyReprObj xs
end

/-- Model of Python str() of a JSON value, as interpolated by f-strings:
a string stays itself, every other value renders as its repr. -/
def Json.pyStr : Json → String
  | .str s => s
  | j => j.pyRepr

/-! ### The two regular expressions of the source, as explicit scanners

Line 83 of the source searches a markdown string with `\[.*?\]\((.*?)\)`
and takes group 1.  Line 88 searches an html string with
`<a href="(.*?)">` and takes group 1.  Both scanners below implement
re.search semantics for exactly these patterns: the match starts at the
leftmost position where one exists, `.` never matches a newline, and the
lazy quantifiers take the shortest extension that lets the rest of the
pattern match. -/

/-- After a literal `[`, consume characters lazily up to the first `](`;
returns the remaining characters after the `](`.  Fails when a newline or
the end of input arrives first (a `.` cannot cross a newline, and later
close brackets beyond a newline are unreachable for this start). -/
def scanMdClose : List Char → Option (List Char)
  | [] => none
  | ']' :: '(' :: rest => some rest
  | c :: rest => if c = '\n' then none else scanMdClose rest

/-- Consume characters lazily up to the first `)`, returning the collected
group.  Fails at a newline or at the end of input. -/
def scanMdGroup (acc : List Char) : List Char → Option String
  | [] => none
  | c :: rest =>
    if c = ')' then some (String.mk acc.reverse)
    else if c = '\n' then none else scanMdGroup (c :: acc) rest

/-- Leftmost search for `\[.*?\]\((.*?)\)`, returning group 1. -/
def findMdLink : List Char → Option String
  | [] => none
  | '[' :: rest =>
    (match scanMdClose rest with
     | some rest2 =>
       (match scanMdGroup [] rest2 with
        | some url => some url
        | none => findMdLink rest)
     | none => findMdLink rest)
  | _ :: rest => findMdLink rest

/-- Consume characters lazily up to the first `">`, returning the collected
group.  Fails at a newline or at the end of input. -/
def scanHrefEnd (acc : List Char) : List Char → Option String
  | [] => none
  | '"' :: '>' :: _ => some (String.mk acc.reverse)
  | c :: rest => if c = '\n' then none else scanHrefEnd (c :: acc) rest

/-- Leftmost search for `<a href="(.*?)">`, returning group 1. -/
def findHref : List Char → Option String
  | [] => none
  | '<' :: t =>
    (match t with
     | 'a' :: ' ' :: 'h' :: 'r' :: 'e' :: 'f' :: '=' :: '"' :: rest =>
       (match scanHrefEnd [] rest with
        | some v => some v
        | none => findHref t)
     | _ => findHref t)
  | _ :: rest => findHref rest

/-! ### The card data model

The code builds the Google Chat message as nested dict literals of a fixed
shape (lines 97-113 and 133-150); the embedding gives that shape a name.
Widget texts built by an f-string are `String`; values inserted verbatim
(decoratedText texts and button urls) keep their `Json` type. -/

/-- A widget of a card section, one constructor per dict shape the code
builds. -/
inductive Widget where
  | textParagraph : String → Widget
  | decoratedText : String → Json → Widget
  | buttonList : String → Json → Widget

/-- The card header dict: title, subtitle, imageUrl, imageType. -/
structure CardHeader where
  title : String
  subtitle : String
  imageUrl : String
  imageType : String

/-- The whole chat message: cardsV2 with one card holding a header and one
section of widgets. -/
structure ChatMessage where
  cardId : String
  header : CardHeader
  widgets : List Widget

/-! ### The formatter (source lines 45-157) -/

/-- Substring containment of strings, the semantics of Python
`needle in haystack`. -/
def strContains (hay needle : String) : Bool := containsSubAux needle.data hay.data

/-- Python membership `needle in value` for the gating check of line 95:
substring test on a string, element test on a list, key test on a dict,
TypeError on anything else. -/
def pyContains (needle : String) : Json → Except String Bool
  | .str s => .ok (strContains s needle)
  | .arr xs => .ok (xs.any (fun j => isStrEq j needle))
  | .obj fs => .ok (fs.any (fun p => p.1 == needle))
  | _ => .error "TypeError: in"

/-- Source lines 55-57: prefer the System.TeamProject resource field,
falling back to resourceContainers.project.name, then to the literal
Unknown Project. -/
def resolveProjectName (payload resource_fields : Json) : Except String Json :=
  match pyGetD resource_fields "System.TeamProject" .null with
  | .error e => .error e
  | .ok pn =>
    if pn.truthy then .ok pn
    else
      match pyGetD payload "resourceContainers" (.obj []) with
      | .error e => .error e
      | .ok rc =>
        match pyGetD rc "project" (.obj []) with
        | .error e => .error e
        | .ok proj => pyGetD proj "name" (.str "Unknown Project")

/-- Source lines 74-76: the comment candidate from the detailedMessage
text: split on CRLF, strip each part, keep the non-empty ones, take the
last; the sentinel string when nothing remains or the text is falsy.
Calling split on a truthy non-string raises. -/
def commentFromDetailed (detailed_text : Json) : Except String Json :=
  if detailed_text.truthy then
    match detailed_text with
    | .str s =>
      let parts := ((pySplitOn s "\r\n").map pyStrip).filter (fun p => p != "")
      (match parts.getLast? with
       | some t => .ok (.str t)
       | none => .ok (.str "No comment text found."))
    | _ => .error "AttributeError: split"
  else .ok (.str "No comment text found.")

/-- Source lines 72-78: the comment text.  The detailedMessage candidate
first; when it is (still) the sentinel string, the System.History field,
whose own default is a second placeholder. -/
def extractCommentText (detailed_message_data resource_fields : Json) :
    Except String Json :=
  match pyGetD detailed_message_data "text" .null with
  | .error e => .error e
  | .ok detailed_text =>
    match commentFromDetailed detailed_text with
    | .error e => .error e
    | .ok comment_text1 =>
      if isStrEq comment_text1 "No comment text found." then
        pyGetD resource_fields "System.History" (.str "Could not retrieve comment text.")
      else .ok comment_text1

/-- Source lines 82-84: the markdown link stage; the sentinel hash when
the field is falsy or the pattern does not match.  re.search on a truthy
non-string raises. -/
def linkFromMarkdown (markdown_text : Json) : Except String Json :=
  if markdown_text.truthy then
    match markdown_text with
    | .str s =>
      (match findMdLink s.data with
       | some url => .ok (.str url)
       | none => .ok (.str "#"))
    | _ => .error "TypeError: re.search"
  else .ok (.str "#")

/-- Source lines 86-89: the html link stage, with &amp; unescaped. -/
def linkFromHtml (html_text : Json) : Except String Json :=
  if html_text.truthy then
    match html_text with
    | .str s =>
      (match findHref s.data with
       | some url => .ok (.str (pyReplace url "&amp;" "&"))
       | none => .ok (.str "#"))
    | _ => .error "TypeError: re.search"
  else .ok (.str "#")

/-- Source line 91: the resource link stage, _links.html.href with the raw
url field (default hash) as the lookup default. -/
def linkFromResource (resource : Json) : Except String Json :=
  match pyGetD resource "_links" (.obj []) with
  | .error e => .error e
  | .ok links =>
    match pyGetD links "html" (.obj []) with
    | .error e => .error e
    | .ok htmlLinks =>
      match pyGetD resource "url" (.str "#") with
      | .error e => .error e
      | .ok urlFallback => pyGetD htmlLinks "href" urlFallback

/-- Source lines 80-91: the work item link.  Each stage runs only while
the link is still the sentinel hash. -/
def extractWorkItemLink (message_data resource : Json) : Except String Json :=
  match pyGetD message_data "markdown" .null with
  | .error e => .error e
  | .ok markdown_text =>
    match linkFromMarkdown markdown_text with
    | .error e => .error e
    | .ok link1 =>
      if isStrEq link1 "#" then
        match pyGetD message_data "html" .null with
        | .error e => .error e
        | .ok html_text =>
          match linkFromHtml html_text with
          | .error e => .error e
          | .ok link2 =>
            if isStrEq link2 "#" then linkFromResource resource
            else .ok link2
      else .ok link1

/-- The mention string gating comment notifications (source line 94). -/
def tag_to_find : String := "@Francisco Aliss"

/-- Source lines 97-113: the comment card, built when the gate passes. -/
def mkCommentMessage (wi_id wi_type wi_title commenter project_name comment_text
    work_item_link rev : Json) : ChatMessage :=
  { cardId := "comment-wi-" ++ wi_id.pyStr ++ "-rev-" ++ rev.pyStr
    header :=
      { title := "New Comment on " ++ wi_type.pyStr ++ " #" ++ wi_id.pyStr
        subtitle := wi_title.pyStr ++ " | By: " ++ commenter.pyStr
        imageUrl := "https://img.icons8.com/color/48/000000/comments.png"
        imageType := "CIRCLE" }
    widgets :=
      (let baseWidgets : List Widget :=
        [ .textParagraph ("<b>Project:</b> " ++ project_name.pyStr),
          .textParagraph ("<b>Comment:</b>\n" ++ comment_text.pyStr) ]
       if !isStrEq work_item_link "#" then
         baseWidgets ++ [.buttonList "View Work Item" work_item_link]
       else baseWidgets) }

/-- Source lines 133-150: the pull request card. -/
def mkPRMessage (pr_id repo_name pr_project_name pr_title creator : Json)
    (source_branch target_branch : String) (pr_url : Json) : ChatMessage :=
  { cardId := "pr-" ++ pr_id.pyStr
    header :=
      { title := "Pull Request #" ++ pr_id.pyStr ++ " Created"
        subtitle := "Repo: " ++ repo_name.pyStr ++ " | Project: " ++ pr_project_name.pyStr
        imageUrl := "https://img.icons8.com/fluent/48/000000/pull-request.png"
        imageType := "CIRCLE" }
    widgets :=
      (let baseWidgets : List Widget :=
        [ .decoratedText "Title" pr_title,
          .decoratedText "Created By" creator,
          .decoratedText "Branches" (.str (source_branch ++ " → " ++ target_branch)) ]
       if !isStrEq pr_url "#" then
         baseWidgets ++ [.buttonList "View Pull Request" pr_url]
       else baseWidgets) }

/-- Source lines 128-129: a branch name from a ref value, the fixed prefix
replaced away; .replace on a non-string raises. -/
def branchOfRef (ref : Json) : Except String String :=
  match ref with
  | .str s => .ok (pyReplace s "refs/heads/" "")
  | _ => .error "AttributeError: replace"

/-- Source lines 66-116: the workitem.commented branch. -/
def formatCommented (message_data detailed_message_data resource resource_fields
    project_name : Json) : Except String (Option ChatMessage) :=
  match pyGetD resource "id" (.str "N/A") with
  | .error e => .error e
  | .ok wi_id =>
  match pyGetD resource_fields "System.WorkItemType" (.str "Work Item") with
  | .error e => .error e
  | .ok wi_type =>
  match pyGetD resource_fields "System.Title" (.str "N/A") with
  | .error e => .error e
  | .ok wi_title =>
  match pyGetD resource_fields "System.ChangedBy" (.obj []) with
  | .error e => .error e
  | .ok changed_by =>
  match pyGetD changed_by "displayName" (.str "Unknown User") with
  | .error e => .error e
  | .ok commenter =>
  match extractCommentText detailed_message_data resource_fields with
  | .error e => .error e
  | .ok comment_text =>
  match extractWorkItemLink message_data resource with
  | .error e => .error e
  | .ok work_item_link =>
  match pyContains tag_to_find comment_text with
  | .error e => .error e
  | .ok found =>
    if found then
      match pyGetD resource "rev" (.str "N/A") with
      | .error e => .error e
      | .ok rev =>
        .ok (some (mkCommentMessage wi_id wi_type wi_title commenter project_name
          comment_text work_item_link rev))
    else .ok none

/-- Source lines 119-150: the git.pullrequest.created branch. -/
def formatPRCreated (resource project_name : Json) :
    Except String (Option ChatMessage) :=
  match pyGetD resource "repository" (.obj []) with
  | .error e => .error e
  | .ok repo =>
  match pyGetD repo "name" (.str "N/A") with
  | .error e => .error e
  | .ok repo_name =>
  match pyGetD repo "project" (.obj []) with
  | .error e => .error e
  | .ok repo_project =>
  match pyGetD repo_project "name" project_name with
  | .error e => .error e
  | .ok pr_project_name =>
  match pyGetD resource "pullRequestId" (.str "N/A") with
  | .error e => .error e
  | .ok pr_id =>
  match pyGetD resource "title" (.str "N/A") with
  | .error e => .error e
  | .ok pr_title =>
  match pyGetD resource "createdBy" (.obj []) with
  | .error e => .error e
  | .ok created_by =>
  match pyGetD created_by "displayName" (.str "N/A") with
  | .error e => .error e
  | .ok creator =>
  match pyGetD resource "sourceRefName" (.str "N/A") with
  | .error e => .error e
  | .ok source_ref =>
  match branchOfRef source_ref with
  | .error e => .error e
  | .ok source_branch =>
  match pyGetD resource "targetRefName" (.str "N/A") with
  | .error e => .error e
  | .ok target_ref =>
  match branchOfRef target_ref with
  | .error e => .error e
  | .ok target_branch =>
  match pyGetD resource "_links" (.obj []) with
  | .error e => .error e
  | .ok links =>
  match pyGetD links "web" (.obj []) with
  | .error e => .error e
  | .ok web =>
  match pyGetD web "href" (.str "#") with
  | .error e => .error e
  | .ok pr_url0 =>
    if isStrEq pr_url0 "#" then
      match pyGetD resource "url" (.str "#") with
      | .error e => .error e
      | .ok pr_url =>
        .ok (some (mkPRMessage pr_id repo_name pr_project_name pr_title creator
          source_branch target_branch pr_url))
    else
      .ok (some (mkPRMessage pr_id repo_name pr_project_name pr_title creator
        source_branch target_branch pr_url0))

/-- Source lines 45-157: format an Azure DevOps event payload into an
optional chat message.  `.error` models a Python exception escaping the
function (the handler catches it); `.ok none` means no notification. -/
def format_ado_event_card (payload : Json) : Except String (Option ChatMessage) :=
  match pyGetD payload "eventType" (.str "unknown") with
  | .error e => .error e
  | .ok event_type =>
  match pyGetD payload "message" (.obj []) with
  | .error e => .error e
  | .ok message_data =>
  match pyGetD payload "detailedMessage" (.obj []) with
  | .error e => .error e
  | .ok detailed_message_data =>
  match pyGetD payload "resource" (.obj []) with
  | .error e => .error e
  | .ok resource =>
  match pyGetD resource "fields" (.obj []) with
  | .error e => .error e
  | .ok resource_fields =>
  match resolveProjectName payload resource_fields with
  | .error e => .error e
  | .ok project_name =>
    if isStrEq event_type "workitem.commented" then
      formatCommented message_data detailed_message_data resource resource_fields
        project_name
    else if isStrEq event_type "git.pullrequest.created" then
      formatPRCreated resource project_name
    else .ok none

/-! ### Basic authentication (source lines 174-199)

base64.b64decode and bytes.decode are modelled by a strict standard-
alphabet base64 decoder followed by a validating UTF-8 decoder; both
return `none` exactly where Python raises, and the handler treats any
`none` as a failed authentication, like the except block of line 189. -/

/-- The 6-bit value of a standard base64 alphabet character. -/
def b64CharVal (c : Char) : Option Nat :=
  if 'A' ≤ c && c ≤ 'Z' then some (c.toNat - 65)
  else if 'a' ≤ c && c ≤ 'z' then some (c.toNat - 97 + 26)
  else if '0' ≤ c && c ≤ '9' then some (c.toNat - 48 + 52)
  else if c = '+' then some 62
  else if c = '/' then some 63
  else none

/-- Decode base64 in groups of four characters, with = padding allowed
only at the very end; yields the byte values. -/
def b64DecodeGroups : List Char → Option (List Nat)
  | [] => some []
  | c1 :: c2 :: c3 :: c4 :: rest =>
    (match b64CharVal c1, b64CharVal c2 with
     | some v1, some v2 =>
       if c3 = '=' then
         if c4 = '=' && rest.isEmpty then some [v1 * 4 + v2 / 16] else none
       else
         (match b64CharVal c3 with
          | some v3 =>
            if c4 = '=' then
              if rest.isEmpty then some [v1 * 4 + v2 / 16, (v2 % 16) * 16 + v3 / 4]
              else none
            else
              (match b64CharVal c4 with
               | some v4 =>
                 (b64DecodeGroups rest).map
                   (fun t => (v1 * 4 + v2 / 16) :: ((v2 % 16) * 16 + v3 / 4)
                     :: ((v3 % 4) * 64 + v4) :: t)
               | none => none)
          | none => none)
     | _, _ => none)
  | _ => none

/-- A byte is a UTF-8 continuation byte. -/
def isCont (b : Nat) : Bool := 128 ≤ b && b < 192

/-- Validating UTF-8 decoder: rejects stray continuation bytes, truncated
sequences, overlong encodings, surrogate code points and values beyond
U+10FFFF, exactly the inputs where bytes.decode raises in Python. -/
def utf8DecodeAux : List Nat → Option (List Char)
  | [] => some []
  | b :: rest =>
    if b < 128 then (utf8DecodeAux rest).map (fun t => Char.ofNat b :: t)
    else if b < 192 then none
    else if b < 224 then
      (match rest with
       | b2 :: rest2 =>
         if isCont b2 then
           let cp := (b - 192) * 64 + (b2 - 128)
           if cp < 128 then none
           else (utf8DecodeAux rest2).map (fun t => Char.ofNat cp :: t)
         else none
       | [] => none)
    else if b < 240 then
      (match rest with
       | b2 :: b3 :: rest3 =>
         if isCont b2 && isCont b3 then
           let cp := (b - 224) * 4096 + (b2 - 128) * 64 + (b3 - 128)
           if cp < 2048 || (55296 ≤ cp && cp ≤ 57343) then none
           else (utf8DecodeAux rest3).map (fun t => Char.ofNat cp :: t)
         else none
       | _ => none)
    else if b < 248 then
      (match rest with
       | b2 :: b3 :: b4 :: rest4 =>
         if isCont b2 && isCont b3 && isCont b4 then
           let cp := (b - 240) * 262144 + (b2 - 128) * 4096 + (b3 - 128) * 64 + (b4 - 128)
           if cp < 65536 || cp > 1114111 then none
           else (utf8DecodeAux rest4).map (fun t => Char.ofNat cp :: t)
         else none
       | _ => none)
    else none

/-- Model of base64.b64decode followed by .decode of utf-8 (line 181). -/
def b64DecodeUtf8 (s : String) : Option String :=
  match b64DecodeGroups s.data with
  | some bytes => (utf8DecodeAux bytes).map String.mk
  | none => none

/-- Scan for the first occurrence of the separator; the part before it and
the untouched remainder. -/
def splitOnceAux : Nat → List Char → List Char → List Char → Option (String × String)
  | 0, _, _, _ => none
  | fuel + 1, pat, acc, cs =>
    match cs with
    | [] => none
    | c :: rest =>
      if listStartsWith cs pat then
        some (String.mk acc.reverse, String.mk (cs.drop pat.length))
      else splitOnceAux fuel pat (c :: acc) rest

/-- Python s.split(sep, 1): the part before the first separator and the
untouched remainder; `none` when the separator does not occur (the code
paths treat that as an unpacking failure). -/
def splitOnce (s sep : String) : Option (String × String) :=
  splitOnceAux (s.data.length + 1) sep.data [] s.data

/-- The process configuration read from environment variables at startup
(lines 12-14); os.environ.get yields None when a variable is unset. -/
structure Config where
  chatWebhookUrl : Option String
  adoUser : Option String
  adoPass : Option String

/-- Python truthiness of an optional environment string: None and the
empty string are falsy. -/
def optTruthy : Option String → Bool
  | none => false
  | some s => s != ""

/-- Source lines 174-195: the Basic authentication check.  Fails closed
when either configured credential is falsy; otherwise requires a truthy
header of scheme basic (case-insensitive), splits off the encoded part at
the first space of the original header, decodes it, splits the decoded
text at the first colon and compares both parts to the configuration.
Every decode or split failure lands in the except block and fails. -/
def checkAuth (adoUser adoPass : Option String) (auth_header : Option String) : Bool :=
  if optTruthy adoUser && optTruthy adoPass then
    match auth_header with
    | none => false
    | some h =>
      if h != "" && pyStartsWith (pyLower h) "basic " then
        match splitOnce h " " with
        | none => false
        | some (_, encoded) =>
          match b64DecodeUtf8 encoded with
          | none => false
          | some decoded =>
            match splitOnce decoded ":" with
            | none => false
            | some (username, password) =>
              some username == adoUser && some password == adoPass
      else false
  else false

/-! ### json.loads (line 205), modelled by a small JSON parser

The parser accepts null, booleans, integer numbers, strings with the
standard escapes (basic-plane \u included), arrays and objects, with
whitespace between tokens; fractional and exponent number forms are out of
scope for this development.  Duplicate object keys keep the last value,
as a Python dict does. -/

def jsonWs (c : Char) : Bool := c = ' ' || c = '\t' || c = '\n' || c = '\r'

def skipWs : List Char → List Char
  | [] => []
  | c :: rest => if jsonWs c then skipWs rest else c :: rest

def braceL : Char := Char.ofNat 123
def braceR : Char := Char.ofNat 125

def hexVal (c : Char) : Option Nat :=
  if '0' ≤ c && c ≤ '9' then some (c.toNat - 48)
  else if 'a' ≤ c && c ≤ 'f' then some (c.toNat - 97 + 10)
  else if 'A' ≤ c && c ≤ 'F' then some (c.toNat - 65 + 10)
  else none

/-- Parse the body of a JSON string after the opening quote. -/
def parseStringBody : Nat → List Char → List Char → Option (String × List Char)
  | 0, _, _ => none
  | _ + 1, _, [] => none
  | fuel + 1, acc, c :: rest =>
    if c = '"' then some (String.mk acc.reverse, rest)
    else if c = '\\' then
      match rest with
      | [] => none
      | e :: rest2 =>
        if e = '"' || e = '\\' || e = '/' then parseStringBody fuel (e :: acc) rest2
        else if e = 'b' then parseStringBody fuel (Char.ofNat 8 :: acc) rest2
        else if e = 'f' then parseStringBody fuel (Char.ofNat 12 :: acc) rest2
        else if e = 'n' then parseStringBody fuel ('\n' :: acc) rest2
        else if e = 'r' then parseStringBody fuel ('\r' :: acc) rest2
        else if e = 't' then parseStringBody fuel ('\t' :: acc) rest2
        else if e = 'u' then
          match rest2 with
          | h1 :: h2 :: h3 :: h4 :: rest3 =>
            (match hexVal h1, hexVal h2, hexVal h3, hexVal h4 with
             | some a, some b, some c2, some d =>
               let cp := a * 4096 + b * 256 + c2 * 16 + d
               if 55296 ≤ cp && cp ≤ 57343 then none
               else parseStringBody fuel (Char.ofNat cp :: acc) rest3
             | _, _, _, _ => none)
          | _ => none
        else none
    else if c.toNat < 32 then none
    else parseStringBody fuel (c :: acc) rest

def isDigit (c : Char) : Bool := '0' ≤ c && c ≤ '9'

/-- Split off a maximal run of decimal digits. -/
def takeDigits : List Char → List Char × List Char
  | [] => ([], [])
  | c :: rest =>
    if isDigit c then
      let (ds, r) := takeDigits rest
      (c :: ds, r)
    else ([], c :: rest)

def digitsToNat : List Char → Nat
  | [] => 0
  | ds => ds.foldl (fun n c => n * 10 + (c.toNat - 48)) 0

/-- Parse an integer JSON number (no fraction or exponent). -/
def parseNumber (cs : List Char) : Option (Json × List Char) :=
  let (neg, cs2) := match cs with
    | '-' :: r => (true, r)
    | _ => (false, cs)
  match takeDigits cs2 with
  | ([], _) => none
  | (ds, rest) =>
    (match rest with
     | '.' :: _ => none
     | 'e' :: _ => none
     | 'E' :: _ => none
     | _ =>
       let n : Int := Int.ofNat (digitsToNat ds)
       some (.num (if neg then -n else n), rest))

/-- Record a key in an object under construction, later value winning, as
with a Python dict. -/
def insertKey (fs : List (String × Json)) (k : String) (v : Json) :
    List (String × Json) :=
  fs.filter (fun p => p.1 != k) ++ [(k, v)]

mutual
/-- Parse one JSON value, leading whitespace allowed. -/
def parseValue : Nat → List Char → Option (Json × List Char)
  | 0, _ => none
  | fuel + 1, cs =>
    match skipWs cs with
    | [] => none
    | 'n' :: 'u' :: 'l' :: 'l' :: rest => some (.null, rest)
    | 't' :: 'r' :: 'u' :: 'e' :: rest => some (.bool true, rest)
    | 'f' :: 'a' :: 'l' :: 's' :: 'e' :: rest => some (.bool false, rest)
    | '"' :: rest =>
      (parseStringBody (rest.length + 1) [] rest).map (fun p => (.str p.1, p.2))
    | '[' :: rest =>
      (match skipWs rest with
       | ']' :: rest2 => some (.arr [], rest2)
       | rest2 => parseArrayItems fuel [] rest2)
    | c :: rest =>
      if c = braceL then
        (match skipWs rest with
         | r :: rest2 =>
           if r = braceR then some (.obj [], rest2)
           else parseObjItems fuel [] (r :: rest2)
         | [] => none)
      else parseNumber (c :: rest)

/-- Parse the items of a non-empty array, commas between them. -/
def parseArrayItems : Nat → List Json → List Char → Option (Json × List Char)
  | 0, _, _ => none
  | fuel + 1, acc, cs =>
    match parseValue fuel cs with
    | none => none
    | some (v, rest) =>
      (match skipWs rest with
       | ',' :: rest2 => parseArrayItems fuel (v :: acc) rest2
       | ']' :: rest2 => some (.arr (v :: acc).reverse, rest2)
       | _ => none)

/-- Parse the members of a non-empty object, commas between them. -/
def parseObjItems : Nat → List (String × Json) → List Char →
    Option (Json × List Char)
  | 0, _, _ => none
  | fuel + 1, acc, cs =>
    match skipWs cs with
    | '"' :: rest =>
      (match parseStringBody (rest.length + 1) [] rest with
       | none => none
       | some (k, rest2) =>
         (match skipWs rest2 with
          | ':' :: rest3 =>
            (match parseValue fuel rest3 with
             | none => none
             | some (v, rest4) =>
               (match skipWs rest4 with
                | ',' :: rest5 => parseObjItems fuel (insertKey acc k v) rest5
                | r :: rest5 =>
                  if r = braceR then some (.obj (insertKey acc k v), rest5)
                  else none
                | [] => none))
          | _ => none))
    | _ => none
end

/-- Model of json.loads: parse one value surrounded by whitespace only;
anything else raises json.JSONDecodeError. -/
def json_loads (s : String) : Except String Json :=
  match parseValue (2 * s.length + 8) s.data with
  | some (j, rest) =>
    if (skipWs rest).isEmpty then .ok j else .error "JSONDecodeError"
  | none => .error "JSONDecodeError"

/-! ### The chat notifier and the handler (lines 21-42 and 161-232) -/

/-- The outcome of the outbound HTTP POST to the chat webhook, seen from
outside the process: a 2xx response, a non-2xx response (raise_for_status
raises), or a network error or other exception. -/
inductive NetOutcome where
  | ok2xx : NetOutcome
  | non2xx : NetOutcome
  | netError : NetOutcome

/-- Source lines 21-42: returns False without attempting delivery when the
webhook URL is not configured; otherwise True exactly when the POST came
back 2xx.  Every exception is caught inside, so the result is always a
boolean. -/
def send_to_google_chat (cfg : Config) (net : NetOutcome)
    (_message_payload : ChatMessage) : Bool :=
  if !optTruthy cfg.chatWebhookUrl then false
  else
    match net with
    | .ok2xx => true
    | _ => false

/-- The inbound Netlify event: the fields the handler reads.  headers are
already lowercased by the platform, hence the single authorization
entry. -/
structure NetlifyEvent where
  httpMethod : Option String
  authorization : Option String
  body : Option String

/-- An HTTP response of the handler: the status code and the status and
message fields of the JSON body. -/
structure HandlerResponse where
  statusCode : Nat
  bodyStatus : String
  bodyMessage : String
deriving DecidableEq

/-- Source lines 161-232: reject non-POST with 405, failed authentication
with 401; then parse the body (default literal when absent), check the
chat URL configuration, format the event, and deliver when a message was
produced.  The two except arms map a JSON parse failure to 400 and any
other exception (including one escaping the formatter) to 500. -/
def handler (cfg : Config) (net : NetOutcome) (event : NetlifyEvent) :
    HandlerResponse :=
  if event.httpMethod != some "POST" then
    ⟨405, "error", "Method Not Allowed"⟩
  else if !checkAuth cfg.adoUser cfg.adoPass event.authorization then
    ⟨401, "error", "Authentication Required"⟩
  else
    match json_loads (event.body.getD "\x7b\x7d") with
    | .error _ => ⟨400, "error", "Invalid JSON payload"⟩
    | .ok payload =>
      if !optTruthy cfg.chatWebhookUrl then
        ⟨500, "error", "Webhook processor configuration error"⟩
      else
        match format_ado_event_card payload with
        | .error _ => ⟨500, "error", "Internal Server Error processing webhook"⟩
        | .ok none => ⟨200, "success", "Webhook received, no notification required"⟩
        | .ok (some msg) =>
          if send_to_google_chat cfg net msg then
            ⟨200, "success", "Webhook received and notification sent"⟩
          else
            ⟨500, "error", "Webhook received but failed to send notification to Google Chat"⟩

/-! ### Shape predicates and claim-side reference definitions

These definitions restate fragments of the specification in its own words,
to be compared with the embedding above. -/

/-- The value is a dict. -/
def isObj : Json → Bool
  | .obj _ => true
  | _ => false

/-- The field value under the defaulting the code applies with
`.get(key, default)` on a value already known to be a dict. -/
def fieldD (j : Json) (k : String) (d : Json) : Json := (j.objField k).getD d

/-- The optional field is absent or a dict: its own `.get` calls cannot
raise. -/
def okObjOpt : Option Json → Bool
  | none => true
  | some (.obj _) => true
  | some _ => false

/-- The optional field is absent or a string: the string methods and the
membership test applied to it cannot raise. -/
def okStrOpt : Option Json → Bool
  | none => true
  | some (.str _) => true
  | some _ => false

/-- Every field the formatter dereferences has the type the dereference
expects (dicts where `.get` is called, strings where split, re.search,
replace or `in` is applied); the fields only read or stringified may have
any type.  Sufficient for the formatter to run to completion. -/
def wellShaped (p : Json) : Prop :=
  isObj p = true ∧
  isObj (fieldD p "resource" (.obj [])) = true ∧
  isObj (fieldD (fieldD p "resource" (.obj [])) "fields" (.obj [])) = true ∧
  isObj (fieldD p "resourceContainers" (.obj [])) = true ∧
  isObj (fieldD (fieldD p "resourceContainers" (.obj [])) "project" (.obj [])) = true ∧
  isObj (fieldD p "message" (.obj [])) = true ∧
  isObj (fieldD p "detailedMessage" (.obj [])) = true ∧
  okStrOpt ((fieldD p "detailedMessage" (.obj [])).objField "text") = true ∧
  okStrOpt ((fieldD (fieldD p "resource" (.obj [])) "fields" (.obj [])).objField
    "System.History") = true ∧
  isObj (fieldD (fieldD (fieldD p "resource" (.obj [])) "fields" (.obj []))
    "System.ChangedBy" (.obj [])) = true ∧
  okStrOpt ((fieldD p "message" (.obj [])).objField "markdown") = true ∧
  okStrOpt ((fieldD p "message" (.obj [])).objField "html") = true ∧
  isObj (fieldD (fieldD p "resource" (.obj [])) "_links" (.obj [])) = true ∧
  isObj (fieldD (fieldD (fieldD p "resource" (.obj [])) "_links" (.obj []))
    "html" (.obj [])) = true ∧
  isObj (fieldD (fieldD (fieldD p "resource" (.obj [])) "_links" (.obj []))
    "web" (.obj [])) = true ∧
  isObj (fieldD (fieldD p "resource" (.obj [])) "repository" (.obj [])) = true ∧
  isObj (fieldD (fieldD (fieldD p "resource" (.obj [])) "repository" (.obj []))
    "project" (.obj [])) = true ∧
  isObj (fieldD (fieldD p "resource" (.obj [])) "createdBy" (.obj [])) = true ∧
  okStrOpt ((fieldD p "resource" (.obj [])).objField "sourceRefName") = true ∧
  okStrOpt ((fieldD p "resource" (.obj [])).objField "targetRefName") = true

/-- Claim-side reading of C2: branch names are shown with the leading
refs/heads/ prefix removed when present. -/
def stripRefsHeads (s : String) : String :=
  if pyStartsWith s "refs/heads/" then String.mk (s.data.drop 11) else s

/-- The System.History fallback of the comment-text rule, shared by the
claim-side readings of C5. -/
def histFallback (flds : Json) : String :=
  match flds.objField "System.History" with
  | some (.str h) => h
  | _ => "Could not retrieve comment text."

/-- Claim-side reading of C5 as stated: the last non-empty trimmed CRLF
segment of detailedMessage.text when one exists, otherwise System.History,
otherwise the placeholder. -/
def specCommentClaim (dmd flds : Json) : String :=
  match dmd.objField "text" with
  | some (.str s) =>
    (match (((pySplitOn s "\r\n").map pyStrip).filter (fun p => p != "")).getLast? with
     | some t => t
     | none => histFallback flds)
  | _ => histFallback flds

/-- Amended reading of C5: as the claim states it, except that a last
segment equal to the sentinel text (No comment text found.) also falls
back to System.History, because the code reuses that string as its
not-found marker. -/
def specCommentAmended (dmd flds : Json) : String :=
  match dmd.objField "text" with
  | some (.str s) =>
    (match (((pySplitOn s "\r\n").map pyStrip).filter (fun p => p != "")).getLast? with
     | some t => if t = "No comment text found." then histFallback flds else t
     | none => histFallback flds)
  | _ => histFallback flds

/-- The third link source of C4: the direct link fields on the resource,
_links.html.href with the raw url field as fallback, then the literal
hash. -/
def specLinkDirect (res : Json) : Json :=
  match (fieldD res "_links" (.obj [])).objField "html" with
  | some h =>
    (match h.objField "href" with
     | some v => v
     | none => fieldD res "url" (.str "#"))
  | none => fieldD res "url" (.str "#")

/-- The html-then-direct tail of the claim-side link rule of C4. -/
def specLinkClaimHtml (msgD res : Json) : Json :=
  match msgD.objField "html" with
  | some (.str h) =>
    (match findHref h.data with
     | some v => .str (pyReplace v "&amp;" "&")
     | none => specLinkDirect res)
  | _ => specLinkDirect res

/-- Claim-side reading of C4 as stated: the first succeeding source wins,
where a source succeeds as soon as its pattern matches, whatever URL it
captured. -/
def specLinkClaim (msgD res : Json) : Json :=
  match msgD.objField "markdown" with
  | some (.str s) =>
    (match findMdLink s.data with
     | some url => .str url
     | none => specLinkClaimHtml msgD res)
  | _ => specLinkClaimHtml msgD res

/-- The URL the markdown source of C4 extracts: the first markdown link
pattern when the field is a string containing one, the hash sentinel
otherwise. -/
def specMdLink (o : Option Json) : String :=
  match o with
  | some (.str s) => (findMdLink s.data).getD "#"
  | _ => "#"

/-- The URL the html source of C4 extracts, with &amp; unescaped. -/
def specHtmlLink (o : Option Json) : String :=
  match o with
  | some (.str h) =>
    (match findHref h.data with
     | some v => pyReplace v "&amp;" "&"
     | none => "#")
  | _ => "#"

/-- Amended reading of C4: same order of sources, but a source whose
extracted URL is exactly the hash sentinel does not count as succeeding
and falls through to the next source. -/
def specLinkAmended (msgD res : Json) : Json :=
  if specMdLink (msgD.objField "markdown") != "#" then
    .str (specMdLink (msgD.objField "markdown"))
  else if specHtmlLink (msgD.objField "html") != "#" then
    .str (specHtmlLink (msgD.objField "html"))
  else specLinkDirect res

/-- Claim-side reading of C7: the Basic credentials a header carries, when
the scheme token is basic (case-insensitive), the base64 payload after the
first space decodes to text, and that text splits at a first colon. -/
def basicCredsOf : Option String → Option (String × String)
  | none => none
  | some h =>
    if h != "" && pyStartsWith (pyLower h) "basic " then
      match splitOnce h " " with
      | none => none
      | some (_, encoded) =>
        (match b64DecodeUtf8 encoded with
         | none => none
         | some decoded => splitOnce decoded ":")
    else none

/-- Claim-side reading of C7: authentication matches exactly when both
configured values are present and equal the decoded username and
password. -/
def credsMatchSpec (cfg : Config) (hdr : Option String) : Bool :=
  match cfg.adoUser, cfg.adoPass, basicCredsOf hdr with
  | some u, some p, some (u2, p2) => u2 == u && p2 == p
  | _, _, _ => false

/-- The message the formatter produces for a minimal PR-created payload
carrying only the eventType field; every extracted field degrades to its
placeholder and no link button is added. -/
def prMinimalMsg : ChatMessage :=
  { cardId := "pr-N/A"
    header :=
      { title := "Pull Request #N/A Created"
        subtitle := "Repo: N/A | Project: Unknown Project"
        imageUrl := "https://img.icons8.com/fluent/48/000000/pull-request.png"
        imageType := "CIRCLE" }
    widgets :=
      [ .decoratedText "Title" (.str "N/A"),
        .decoratedText "Created By" (.str "N/A"),
        .decoratedText "Branches" (.str "N/A → N/A") ] }

/-! ## Shared lemmas -/

theorem ebind_ok {α β : Type} (a : α) (f : α → Except String β) :
    (Except.ok a >>= f) = f a := rfl

theorem ebind_err {α β : Type} (e : String) (f : α → Except String β) :
    ((Except.error e : Except String α) >>= f) = Except.error e := rfl

theorem epure {α : Type} (a : α) : (pure a : Except String α) = Except.ok a := rfl

theorem pyGetD_obj (fs : List (String × Json)) (k : String) (d : Json) :
    pyGetD (.obj fs) k d = .ok ((fs.lookup k).getD d) := rfl

theorem pyGetD_ok_obj {j d v : Json} {k : String} (h : pyGetD j k d = .ok v) :
    ∃ fs, j = .obj fs := by
  cases j with
  | obj fs => exact ⟨fs, rfl⟩
  | null => exact absurd h (by simp [pyGetD])
  | bool b => exact absurd h (by simp [pyGetD])
  | num n => exact absurd h (by simp [pyGetD])
  | str s => exact absurd h (by simp [pyGetD])
  | arr xs => exact absurd h (by simp [pyGetD])

theorem isObj_exists {j : Json} (h : isObj j = true) : ∃ fs, j = .obj fs := by
  cases j <;> simp [isObj] at h ⊢

/-! ## C10 -/

/-- C10: with the chat webhook URL unconfigured, every authenticated POST
whose body parses as JSON is answered 500 (configuration error), whatever
the event type, because the configuration check precedes formatting. -/
theorem c10_config_error_before_format (cfg : Config) (net : NetOutcome)
    (ev : NetlifyEvent) (payload : Json)
    (hm : ev.httpMethod = some "POST")
    (ha : checkAuth cfg.adoUser cfg.adoPass ev.authorization = true)
    (hu : optTruthy cfg.chatWebhookUrl = false)
    (hj : json_loads (ev.body.getD "\x7b\x7d") = .ok payload) :
    handler cfg net ev = ⟨500, "error", "Webhook processor configuration error"⟩ := by
  simp [handler, hm, ha, hu, hj]

/-- C10 witness: an unrecognized event type with a missing URL still gets
the 500 configuration answer. -/
theorem c10_config_error_before_format_witness :
    handler ⟨none, some "u", some "p"⟩ .ok2xx
      ⟨some "POST", some "Basic dTpw", some "\x7b\"eventType\": \"zzz\"\x7d"⟩ =
      ⟨500, "error", "Webhook processor configuration error"⟩ :=
  c10_config_error_before_format _ _ _ (.obj [("eventType", .str "zzz")])
    rfl (by rfl) rfl (by rfl)

/-! ## C9 -/

/-- C9: an authenticated POST without a body field is treated as the empty
JSON object and answered 200 with the no-notification message, not 400. -/
theorem c9_missing_body_defaults_to_empty_object (cfg : Config)
    (net : NetOutcome) (ev : NetlifyEvent)
    (hm : ev.httpMethod = some "POST")
    (ha : checkAuth cfg.adoUser cfg.adoPass ev.authorization = true)
    (hu : optTruthy cfg.chatWebhookUrl = true)
    (hb : ev.body = none) :
    handler cfg net ev = ⟨200, "success", "Webhook received, no notification required"⟩ := by
  have hl : json_loads "\x7b\x7d" = .ok (.obj []) := by rfl
  have hf : format_ado_event_card (.obj []) = .ok none := by rfl
  simp [handler, hm, ha, hu, hb, hl, hf]

/-- C9 witness at a concrete configuration and event. -/
theorem c9_missing_body_defaults_to_empty_object_witness :
    handler ⟨some "http://chat.example", some "u", some "p"⟩ .ok2xx
      ⟨some "POST", some "Basic dTpw", none⟩ =
      ⟨200, "success", "Webhook received, no notification required"⟩ :=
  c9_missing_body_defaults_to_empty_object _ _ _ rfl (by rfl) rfl rfl

/-! ## C8 -/

/-- C8: on an authenticated POST whose event formats to a message, a false
result of send_to_google_chat yields 500 with the delivery-failure text, a
true result yields 200 with the success text; and send_to_google_chat is a
total boolean that is true exactly when the URL is configured and the POST
came back 2xx (a non-2xx response or a network exception collapses to
false, never to a raise). -/
theorem c8_delivery_result_drives_status (cfg : Config) (net : NetOutcome)
    (ev : NetlifyEvent) (payload : Json) (m : ChatMessage)
    (hm : ev.httpMethod = some "POST")
    (ha : checkAuth cfg.adoUser cfg.adoPass ev.authorization = true)
    (hu : optTruthy cfg.chatWebhookUrl = true)
    (hj : json_loads (ev.body.getD "\x7b\x7d") = .ok payload)
    (hf : format_ado_event_card payload = .ok (some m)) :
    (send_to_google_chat cfg net m = false →
      handler cfg net ev =
        ⟨500, "error", "Webhook received but failed to send notification to Google Chat"⟩) ∧
    (send_to_google_chat cfg net m = true →
      handler cfg net ev = ⟨200, "success", "Webhook received and notification sent"⟩) ∧
    (send_to_google_chat cfg net m = true ↔ net = NetOutcome.ok2xx) := by
  refine ⟨fun hs => ?_, fun hs => ?_, ?_⟩
  · simp [handler, hm, ha, hu, hj, hf, hs]
  · simp [handler, hm, ha, hu, hj, hf, hs]
  · cases net <;> simp [send_to_google_chat, hu]

/-- C8 witness: a concrete PR event delivered against a failing chat
webhook, instantiating the three conjuncts. -/
theorem c8_delivery_result_drives_status_witness :
    (send_to_google_chat ⟨some "http://chat.example", some "u", some "p"⟩ .non2xx prMinimalMsg = false →
      handler ⟨some "http://chat.example", some "u", some "p"⟩ .non2xx
        ⟨some "POST", some "Basic dTpw", some "\x7b\"eventType\": \"git.pullrequest.created\"\x7d"⟩ =
        ⟨500, "error", "Webhook received but failed to send notification to Google Chat"⟩) ∧
    (send_to_google_chat ⟨some "http://chat.example", some "u", some "p"⟩ .non2xx prMinimalMsg = true →
      handler ⟨some "http://chat.example", some "u", some "p"⟩ .non2xx
        ⟨some "POST", some "Basic dTpw", some "\x7b\"eventType\": \"git.pullrequest.created\"\x7d"⟩ =
        ⟨200, "success", "Webhook received and notification sent"⟩) ∧
    (send_to_google_chat ⟨some "http://chat.example", some "u", some "p"⟩ .non2xx prMinimalMsg = true ↔
      NetOutcome.non2xx = NetOutcome.ok2xx) :=
  c8_delivery_result_drives_status _ _ _ (.obj [("eventType", .str "git.pullrequest.created")]) _
    rfl (by rfl) rfl (by rfl) (by rfl)

/-! ## C7 -/

/-- The code-side authentication check agrees with the claim-side
credential match, for configurations whose values are absent or
non-empty. -/
theorem checkAuth_eq_credsMatchSpec (cfg : Config) (hdr : Option String)
    (hu : cfg.adoUser ≠ some "") (hp : cfg.adoPass ≠ some "") :
    checkAuth cfg.adoUser cfg.adoPass hdr = credsMatchSpec cfg hdr := by
  obtain ⟨url, user, pass⟩ := cfg
  cases user with
  | none => simp [checkAuth, credsMatchSpec, optTruthy]
  | some u =>
    cases pass with
    | none => simp [checkAuth, credsMatchSpec, optTruthy]
    | some p =>
      have hu2 : (u != "") = true := by
        simp only [ne_eq, Option.some.injEq] at hu
        simpa [bne_iff_ne] using hu
      have hp2 : (p != "") = true := by
        simp only [ne_eq, Option.some.injEq] at hp
        simpa [bne_iff_ne] using hp
      simp only [checkAuth, credsMatchSpec, basicCredsOf, optTruthy, hu2, hp2,
        Bool.and_self, if_true]
      cases hdr with
      | none => rfl
      | some h =>
        by_cases hc : (h != "" && pyStartsWith (pyLower h) "basic ") = true
        · simp only [hc, if_true]
          cases hsp : splitOnce h " " with
          | none => simp
          | some pr =>
            obtain ⟨sch, enc⟩ := pr
            cases hb : b64DecodeUtf8 enc with
            | none => simp [hb]
            | some d =>
              cases hsc : splitOnce d ":" with
              | none => simp [hb, hsc]
              | some pr2 =>
                obtain ⟨un, pw⟩ := pr2
                simp [hb, hsc]
        · simp only [Bool.not_eq_true] at hc
          simp [hc]

/-- C7: a POST is answered 401 exactly when the Authorization header does
not carry Basic credentials whose base64-decoded username and password
(split at the first colon) equal the two configured values; an absent
configured credential or any decode or split failure therefore always
yields 401, and never a crash. -/
theorem c7_basic_auth_gates_with_401 (cfg : Config) (net : NetOutcome)
    (ev : NetlifyEvent)
    (hm : ev.httpMethod = some "POST")
    (hu : cfg.adoUser ≠ some "") (hp : cfg.adoPass ≠ some "") :
    (handler cfg net ev).statusCode = 401 ↔
      credsMatchSpec cfg ev.authorization = false := by
  rw [← checkAuth_eq_credsMatchSpec cfg ev.authorization hu hp]
  cases hca : checkAuth cfg.adoUser cfg.adoPass ev.authorization with
  | false => simp [handler, hm, hca]
  | true =>
    cases hl : json_loads (ev.body.getD "\x7b\x7d") with
    | error e => simp [handler, hm, hca, hl]
    | ok payload =>
      cases hurl : optTruthy cfg.chatWebhookUrl with
      | false => simp [handler, hm, hca, hl, hurl]
      | true =>
        cases hf : format_ado_event_card payload with
        | error e => simp [handler, hm, hca, hl, hurl, hf]
        | ok r =>
          cases r with
          | none => simp [handler, hm, hca, hl, hurl, hf]
          | some m =>
            cases hs : send_to_google_chat cfg net m <;>
              simp [handler, hm, hca, hl, hurl, hf, hs]

/-- C7 witness: with matching concrete credentials the response is not
401, the claim-side match being true. -/
theorem c7_basic_auth_gates_with_401_witness :
    (handler ⟨some "http://chat.example", some "u", some "p"⟩ .ok2xx
        ⟨some "POST", some "Basic dTpw", some "\x7b\x7d"⟩).statusCode = 401 ↔
      credsMatchSpec ⟨some "http://chat.example", some "u", some "p"⟩
        (some "Basic dTpw") = false :=
  c7_basic_auth_gates_with_401 _ _ _ rfl (by decide) (by decide)

/-! ## C2 -/

theorem objField_some_obj {j v : Json} {k : String}
    (h : j.objField k = some v) : ∃ fs, j = .obj fs := by
  cases j <;> simp [Json.objField] at h ⊢

/-- The PR branch never skips the message: an ok result is some. -/
theorem formatPRCreated_isSome (res pn : Json) (r : Option ChatMessage)
    (h : formatPRCreated res pn = .ok r) : r.isSome = true := by
  unfold formatPRCreated at h
  repeat' split at h
  all_goals first
    | (cases h; rfl)
    | simp at h

/-- In any message the PR branch produces, the Branches widget text is the
two refs with every occurrence of refs/heads/ replaced away. -/
theorem formatPRCreated_branches (res pn : Json) (m : ChatMessage)
    (src tgt : String)
    (hsrc : res.objField "sourceRefName" = some (.str src))
    (htgt : res.objField "targetRefName" = some (.str tgt))
    (h : formatPRCreated res pn = .ok (some m)) :
    m.widgets.get? 2 = some (.decoratedText "Branches"
      (.str (pyReplace src "refs/heads/" "" ++ " → " ++ pyReplace tgt "refs/heads/" ""))) := by
  obtain ⟨gs, rfl⟩ := objField_some_obj hsrc
  simp only [Json.objField] at hsrc htgt
  unfold formatPRCreated at h
  simp only [pyGetD_obj, hsrc, htgt, Option.getD_some, branchOfRef] at h
  repeat' split at h
  all_goals first
    | (injection h with h; injection h with h; subst h;
       simp only [mkPRMessage]; split <;> rfl)
    | simp at h

/-- The top-level dispatch for a PR-created event hands the resource and
some project name to the PR branch and returns its result. -/
theorem format_pr_inversion (fs : List (String × Json)) (r : Option ChatMessage)
    (he : ((fs.lookup "eventType").getD (.str "unknown")) = .str "git.pullrequest.created")
    (hf : format_ado_event_card (.obj fs) = .ok r) :
    ∃ pn, formatPRCreated ((fs.lookup "resource").getD (.obj [])) pn = .ok r := by
  unfold format_ado_event_card at hf
  simp only [pyGetD_obj, he] at hf
  rw [show isStrEq (Json.str "git.pullrequest.created") "workitem.commented" = false from rfl,
    show isStrEq (Json.str "git.pullrequest.created") "git.pullrequest.created" = true from rfl] at hf
  simp only [Bool.false_eq_true, if_false, if_true] at hf
  split at hf
  · simp at hf
  split at hf
  · simp at hf
  rename_i pn hpn
  exact ⟨pn, hf⟩

/-- C2 counterexample: the code applies str.replace, which removes every
occurrence of refs/heads/, not only a leading prefix.  For the ref
refs/heads/refs/heads/main the message shows the branch main, while the
claim (prefix stripping) predicts refs/heads/main. -/
theorem c2_counterexample :
    format_ado_event_card (Json.obj [
        ("eventType", .str "git.pullrequest.created"),
        ("resource", .obj [
          ("sourceRefName", .str "refs/heads/refs/heads/main"),
          ("targetRefName", .str "refs/heads/main")])]) =
      .ok (some (mkPRMessage (.str "N/A") (.str "N/A") (.str "Unknown Project")
        (.str "N/A") (.str "N/A") "main" "main" (.str "#"))) ∧
    (mkPRMessage (.str "N/A") (.str "N/A") (.str "Unknown Project")
        (.str "N/A") (.str "N/A") "main" "main" (.str "#")).widgets.get? 2 =
      some (.decoratedText "Branches" (.str "main → main")) ∧
    stripRefsHeads "refs/heads/refs/heads/main" = "refs/heads/main" ∧
    ("main" : String) ≠ "refs/heads/main" :=
  ⟨by rfl, by rfl, by rfl, by decide⟩

/-- C2 (amended): a PR-created event that formats without an exception
always yields a message, and the Branches widget shows the source and
target refs with every occurrence of refs/heads/ removed (Python
str.replace); this agrees with prefix stripping whenever refs/heads/
occurs only at the front. -/
theorem c2_amended_pr_branches_replaced (payload : Json) (r : Option ChatMessage)
    (he : pyGetD payload "eventType" (.str "unknown") = .ok (.str "git.pullrequest.created"))
    (hf : format_ado_event_card payload = .ok r) :
    r.isSome = true ∧
    (∀ (m : ChatMessage) (res : Json) (src tgt : String), r = some m →
      pyGetD payload "resource" (.obj []) = .ok res →
      res.objField "sourceRefName" = some (.str src) →
      res.objField "targetRefName" = some (.str tgt) →
      m.widgets.get? 2 = some (.decoratedText "Branches"
        (.str (pyReplace src "refs/heads/" "" ++ " → " ++ pyReplace tgt "refs/heads/" "")))) := by
  obtain ⟨fs, rfl⟩ := pyGetD_ok_obj he
  rw [pyGetD_obj] at he
  injection he with he
  obtain ⟨pn, hpr⟩ := format_pr_inversion fs r he hf
  refine ⟨formatPRCreated_isSome _ _ _ hpr, ?_⟩
  intro m res src tgt hm hres hsrc htgt
  rw [pyGetD_obj] at hres
  injection hres with hres
  subst hres
  subst hm
  exact formatPRCreated_branches _ _ _ _ _ hsrc htgt hpr

/-- C2 witness: a concrete PR event with ordinary refs, whose message
shows main → dev. -/
theorem c2_amended_pr_branches_replaced_witness :
    ∃ r : Option ChatMessage,
      format_ado_event_card (Json.obj [
        ("eventType", .str "git.pullrequest.created"),
        ("resource", .obj [
          ("sourceRefName", .str "refs/heads/main"),
          ("targetRefName", .str "refs/heads/dev")])]) = .ok r ∧
      (r.isSome = true ∧
      (∀ (m : ChatMessage) (res : Json) (src tgt : String), r = some m →
        pyGetD (Json.obj [
          ("eventType", .str "git.pullrequest.created"),
          ("resource", .obj [
            ("sourceRefName", .str "refs/heads/main"),
            ("targetRefName", .str "refs/heads/dev")])]) "resource" (.obj []) = .ok res →
        res.objField "sourceRefName" = some (.str src) →
        res.objField "targetRefName" = some (.str tgt) →
        m.widgets.get? 2 = some (.decoratedText "Branches"
          (.str (pyReplace src "refs/heads/" "" ++ " → " ++ pyReplace tgt "refs/heads/" ""))))) :=
  ⟨_, rfl, c2_amended_pr_branches_replaced _ _ (by rfl) rfl⟩

/-! ## C5 -/

/-- With a well-typed System.History field, the defaulted lookup the code
performs equals the claim-side history fallback. -/
theorem history_getD_eq (fs2 : List (String × Json))
    (hH : okStrOpt ((Json.obj fs2).objField "System.History") = true) :
    ((fs2.lookup "System.History").getD (.str "Could not retrieve comment text.")) =
      .str (histFallback (.obj fs2)) := by
  simp only [Json.objField] at hH
  unfold histFallback
  simp only [Json.objField]
  cases h : fs2.lookup "System.History" with
  | none => rfl
  | some v =>
    rw [h] at hH
    cases v <;> simp [okStrOpt] at hH ⊢

/-- C5 counterexample: when the last segment of the detailed text is
exactly the sentinel string the code reuses as its not-found marker, the
code falls through to System.History, while the claim keeps the
segment. -/
theorem c5_counterexample :
    extractCommentText (.obj [("text", .str "No comment text found.")])
        (.obj [("System.History", .str "the real comment")]) =
      .ok (.str "the real comment") ∧
    specCommentClaim (.obj [("text", .str "No comment text found.")])
        (.obj [("System.History", .str "the real comment")]) =
      "No comment text found." ∧
    ("the real comment" : String) ≠ "No comment text found." :=
  ⟨by rfl, by rfl, by decide⟩

/-- For well-typed fields the comment extraction equals the amended
claim-side rule; shared by several results below. -/
theorem extractCommentText_eq_spec (dmd flds : Json)
    (hdmd : isObj dmd = true)
    (htext : okStrOpt (dmd.objField "text") = true)
    (hflds : isObj flds = true)
    (hH : okStrOpt (flds.objField "System.History") = true) :
    extractCommentText dmd flds = .ok (.str (specCommentAmended dmd flds)) := by
  obtain ⟨ds, rfl⟩ := isObj_exists hdmd
  obtain ⟨fs2, rfl⟩ := isObj_exists hflds
  have hist := history_getD_eq fs2 hH
  unfold extractCommentText specCommentAmended
  simp only [Json.objField] at htext ⊢
  simp only [pyGetD_obj]
  cases ht : ds.lookup "text" with
  | none =>
    simp [commentFromDetailed, Json.truthy, isStrEq, hist]
  | some v =>
    rw [ht] at htext
    cases v with
    | null => simp [okStrOpt] at htext
    | bool b => simp [okStrOpt] at htext
    | num n => simp [okStrOpt] at htext
    | arr xs => simp [okStrOpt] at htext
    | obj ys => simp [okStrOpt] at htext
    | str s =>
      by_cases hs : s = ""
      · subst hs
        simp [commentFromDetailed, Json.truthy, isStrEq, hist,
          show (((pySplitOn "" "\r\n").map pyStrip).filter (fun p => p != "")).getLast? =
            (none : Option String) from rfl]
      · cases hlast : (((pySplitOn s "\r\n").map pyStrip).filter (fun p => p != "")).getLast? with
        | none =>
          simp [commentFromDetailed, Json.truthy, bne_iff_ne, hs, hlast, isStrEq, hist]
        | some t =>
          by_cases hsent : t = "No comment text found."
          · subst hsent
            simp [commentFromDetailed, Json.truthy, bne_iff_ne, hs, hlast, isStrEq, hist]
          · simp [commentFromDetailed, Json.truthy, bne_iff_ne, hs, hlast, isStrEq, hsent, hist]

/-- C5 (amended): for well-typed fields the comment text is the last
non-empty stripped CRLF segment of detailedMessage.text when one exists
and it is not exactly the sentinel string; otherwise System.History;
otherwise the fixed placeholder. -/
theorem c5_amended_comment_text_rule (dmd flds : Json)
    (hdmd : isObj dmd = true)
    (htext : okStrOpt (dmd.objField "text") = true)
    (hflds : isObj flds = true)
    (hH : okStrOpt (flds.objField "System.History") = true) :
    extractCommentText dmd flds = .ok (.str (specCommentAmended dmd flds)) :=
  extractCommentText_eq_spec dmd flds hdmd htext hflds hH

/-- C5 witness: a concrete multi-line detailed text whose last stripped
segment is the extracted comment. -/
theorem c5_amended_comment_text_rule_witness :
    extractCommentText (.obj [("text", .str "Line1\r\n  Please review @Francisco Aliss  ")])
        (.obj []) =
      .ok (.str (specCommentAmended
        (.obj [("text", .str "Line1\r\n  Please review @Francisco Aliss  ")])
        (.obj []))) :=
  c5_amended_comment_text_rule _ _ (by rfl) (by rfl) (by rfl) (by rfl)

/-! ## C4 -/

/-- With well-typed _links fields, the resource stage of the link
extraction computes the claim-side direct link. -/
theorem linkFromResource_eq_direct (rs : List (String × Json))
    (hlnks : isObj (fieldD (.obj rs) "_links" (.obj [])) = true)
    (hlh : isObj (fieldD (fieldD (.obj rs) "_links" (.obj [])) "html" (.obj [])) = true) :
    linkFromResource (.obj rs) = .ok (specLinkDirect (.obj rs)) := by
  cases hl : rs.lookup "_links" with
  | none =>
    simp [linkFromResource, specLinkDirect, fieldD, Json.objField, pyGetD_obj, hl]
  | some lv =>
    have hlv : isObj lv = true := by
      simpa [fieldD, Json.objField, hl] using hlnks
    obtain ⟨ls, rfl⟩ := isObj_exists hlv
    cases hh : ls.lookup "html" with
    | none =>
      simp [linkFromResource, specLinkDirect, fieldD, Json.objField, pyGetD_obj, hl, hh]
    | some hv =>
      have hhv : isObj hv = true := by
        simpa [fieldD, Json.objField, hl, hh] using hlh
      obtain ⟨hs2, rfl⟩ := isObj_exists hhv
      cases hr : hs2.lookup "href" with
      | none =>
        simp [linkFromResource, specLinkDirect, fieldD, Json.objField, pyGetD_obj, hl, hh, hr]
      | some v =>
        simp [linkFromResource, specLinkDirect, fieldD, Json.objField, pyGetD_obj, hl, hh, hr]

/-- C4 counterexample: a markdown link whose URL is exactly the hash
sentinel loses to a later HTML link, because the code reuses the hash as
its not-found marker; the claim predicts that the markdown stage, having
matched, wins. -/
theorem c4_counterexample :
    extractWorkItemLink
        (.obj [("markdown", .str "[see](#)"),
               ("html", .str "<a href=\"http://h\">x</a>")]) (.obj []) =
      .ok (.str "http://h") ∧
    specLinkClaim
        (.obj [("markdown", .str "[see](#)"),
               ("html", .str "<a href=\"http://h\">x</a>")]) (.obj []) =
      .str "#" ∧
    Json.str "http://h" ≠ Json.str "#" :=
  ⟨by rfl, by rfl, by simp⟩

/-- With a well-typed optional markdown field, the markdown stage computes
the claim-side markdown URL. -/
theorem linkFromMarkdown_getD (o : Option Json) (h : okStrOpt o = true) :
    linkFromMarkdown (o.getD .null) = .ok (.str (specMdLink o)) := by
  cases o with
  | none => rfl
  | some v =>
    cases v with
    | str s =>
      by_cases hs : s = ""
      · subst hs; rfl
      · have htr : (Json.truthy (Json.str s)) = true := by
          simp [Json.truthy, bne_iff_ne, hs]
        cases hf : findMdLink s.data <;>
          simp [linkFromMarkdown, specMdLink, htr, hf]
    | null => simp [okStrOpt] at h
    | bool b => simp [okStrOpt] at h
    | num n => simp [okStrOpt] at h
    | arr xs => simp [okStrOpt] at h
    | obj ys => simp [okStrOpt] at h

/-- With a well-typed optional html field, the html stage computes the
claim-side html URL. -/
theorem linkFromHtml_getD (o : Option Json) (h : okStrOpt o = true) :
    linkFromHtml (o.getD .null) = .ok (.str (specHtmlLink o)) := by
  cases o with
  | none => rfl
  | some v =>
    cases v with
    | str s =>
      by_cases hs : s = ""
      · subst hs; rfl
      · have htr : (Json.truthy (Json.str s)) = true := by
          simp [Json.truthy, bne_iff_ne, hs]
        cases hf : findHref s.data <;>
          simp [linkFromHtml, specHtmlLink, htr, hf]
    | null => simp [okStrOpt] at h
    | bool b => simp [okStrOpt] at h
    | num n => simp [okStrOpt] at h
    | arr xs => simp [okStrOpt] at h
    | obj ys => simp [okStrOpt] at h

/-- For well-typed fields the link extraction equals the amended
claim-side cascade; shared by several results below. -/
theorem extractWorkItemLink_eq_spec (msgD res : Json)
    (hmsg : isObj msgD = true)
    (hmd : okStrOpt (msgD.objField "markdown") = true)
    (hht : okStrOpt (msgD.objField "html") = true)
    (hres : isObj res = true)
    (hlnks : isObj (fieldD res "_links" (.obj [])) = true)
    (hlh : isObj (fieldD (fieldD res "_links" (.obj [])) "html" (.obj [])) = true) :
    extractWorkItemLink msgD res = .ok (specLinkAmended msgD res) := by
  obtain ⟨ms, rfl⟩ := isObj_exists hmsg
  obtain ⟨rs, rfl⟩ := isObj_exists hres
  have hdir := linkFromResource_eq_direct rs hlnks hlh
  simp only [Json.objField] at hmd hht
  unfold extractWorkItemLink specLinkAmended
  simp only [pyGetD_obj, Json.objField]
  rw [linkFromMarkdown_getD _ hmd]
  by_cases hM : specMdLink (ms.lookup "markdown") = "#"
  · rw [hM]
    simp only [show isStrEq (Json.str "#") "#" = true from rfl, if_true,
      show (("#" : String) != "#") = false from rfl, Bool.false_eq_true, if_false]
    rw [linkFromHtml_getD _ hht]
    by_cases hH : specHtmlLink (ms.lookup "html") = "#"
    · rw [hH]
      simp only [show isStrEq (Json.str "#") "#" = true from rfl, if_true,
        show (("#" : String) != "#") = false from rfl, Bool.false_eq_true, if_false]
      exact hdir
    · simp [isStrEq, beq_iff_eq, hH, bne_iff_ne]
  · simp [isStrEq, beq_iff_eq, hM, bne_iff_ne]

/-- C4 (amended): with well-typed fields the work-item link is chosen by
the first source in the fixed order markdown, html, resource direct link,
literal hash, where a stage whose extracted URL is exactly the hash
sentinel counts as failing and falls through. -/
theorem c4_amended_link_precedence (msgD res : Json)
    (hmsg : isObj msgD = true)
    (hmd : okStrOpt (msgD.objField "markdown") = true)
    (hht : okStrOpt (msgD.objField "html") = true)
    (hres : isObj res = true)
    (hlnks : isObj (fieldD res "_links" (.obj [])) = true)
    (hlh : isObj (fieldD (fieldD res "_links" (.obj [])) "html" (.obj [])) = true) :
    extractWorkItemLink msgD res = .ok (specLinkAmended msgD res) :=
  extractWorkItemLink_eq_spec msgD res hmsg hmd hht hres hlnks hlh

/-- C4 witness: markdown and html links both present with distinct real
URLs; the markdown link wins. -/
theorem c4_amended_link_precedence_witness :
    extractWorkItemLink
        (.obj [("markdown", .str "[wi](http://md.example/1)"),
               ("html", .str "<a href=\"http://html.example/1\">wi</a>")])
        (.obj []) =
      .ok (specLinkAmended
        (.obj [("markdown", .str "[wi](http://md.example/1)"),
               ("html", .str "<a href=\"http://html.example/1\">wi</a>")])
        (.obj [])) :=
  c4_amended_link_precedence _ _ (by rfl) (by rfl) (by rfl) (by rfl) (by rfl) (by rfl)

/-! ## C1 -/

/-- C1: a workitem.commented event that formats without an exception and
whose extracted comment text is the string t produces a Chat Message
exactly when t contains the configured mention string as an exact,
case-sensitive substring; otherwise nothing is produced. -/
theorem c1_comment_gating_iff (payload : Json) (r : Option ChatMessage) (t : String)
    (he : pyGetD payload "eventType" (.str "unknown") = .ok (.str "workitem.commented"))
    (hf : format_ado_event_card payload = .ok r)
    (ht : extractCommentText
        ((payload.objField "detailedMessage").getD (.obj []))
        ((((payload.objField "resource").getD (.obj [])).objField "fields").getD (.obj []))
      = .ok (.str t)) :
    r.isSome = strContains t tag_to_find := by
  obtain ⟨fs, rfl⟩ := pyGetD_ok_obj he
  rw [pyGetD_obj] at he
  injection he with he
  simp only [Json.objField] at ht
  unfold format_ado_event_card at hf
  simp only [pyGetD_obj, he] at hf
  rw [show isStrEq (Json.str "workitem.commented") "workitem.commented" = true from rfl] at hf
  simp only [if_true] at hf
  split at hf
  · simp at hf
  rename_i resource_fields hfld
  obtain ⟨gs, hR⟩ := pyGetD_ok_obj hfld
  rw [hR] at hfld hf
  rw [hR] at ht
  rw [pyGetD_obj] at hfld
  injection hfld with hfld
  subst hfld
  simp only [Json.objField] at ht
  split at hf
  · simp at hf
  rename_i pn hpn
  unfold formatCommented at hf
  simp only [pyGetD_obj] at hf
  repeat' split at hf
  all_goals first
    | (simp at hf; done)
    | (simp_all [pyContains, tag_to_find]; done)
    | (simp_all [pyContains, tag_to_find]; subst hf; rfl)

/-- C1 witness: the literal examples of the specification; text containing
the mention produces a message, text without it produces nothing. -/
theorem c1_comment_gating_iff_witness :
    ∃ r1 r2 : Option ChatMessage,
      format_ado_event_card (Json.obj [
        ("eventType", .str "workitem.commented"),
        ("detailedMessage", .obj [("text", .str "Please review @Francisco Aliss")])]) = .ok r1 ∧
      r1.isSome = strContains "Please review @Francisco Aliss" tag_to_find ∧
      format_ado_event_card (Json.obj [
        ("eventType", .str "workitem.commented"),
        ("detailedMessage", .obj [("text", .str "Please review")])]) = .ok r2 ∧
      r2.isSome = strContains "Please review" tag_to_find :=
  ⟨_, _, rfl,
   c1_comment_gating_iff (Json.obj [
       ("eventType", .str "workitem.commented"),
       ("detailedMessage", .obj [("text", .str "Please review @Francisco Aliss")])])
     _ _ (by rfl) rfl (by rfl),
   rfl,
   c1_comment_gating_iff (Json.obj [
       ("eventType", .str "workitem.commented"),
       ("detailedMessage", .obj [("text", .str "Please review")])])
     _ _ (by rfl) rfl (by rfl)⟩

/-! ## C6 -/

theorem str_append_ne_empty (a b : String) (ha : a ≠ "") : (a ++ b) ≠ "" := by
  obtain ⟨as⟩ := a
  obtain ⟨bs⟩ := b
  intro h
  apply ha
  have h2 : as ++ bs = ([] : List Char) := congrArg String.data h
  obtain ⟨h3, _⟩ := List.append_eq_nil.mp h2
  subst h3
  rfl

/-- Every comment card carries at least two widgets, a non-empty title and
the fixed icon. -/
theorem mkCommentMessage_wf (a b c d e f g h : Json) :
    (mkCommentMessage a b c d e f g h).widgets ≠ [] ∧
    (mkCommentMessage a b c d e f g h).header.title ≠ "" ∧
    (mkCommentMessage a b c d e f g h).header.imageUrl ≠ "" := by
  refine ⟨?_, ?_, ?_⟩
  · simp only [mkCommentMessage]
    split <;> simp
  · exact str_append_ne_empty _ _ (str_append_ne_empty _ _
      (str_append_ne_empty _ _ (by decide)))
  · show ("https://img.icons8.com/color/48/000000/comments.png" : String) ≠ ""
    decide

/-- Every PR card carries at least three widgets, a non-empty title and
the fixed icon. -/
theorem mkPRMessage_wf (a b c d e : Json) (sb tb : String) (u : Json) :
    (mkPRMessage a b c d e sb tb u).widgets ≠ [] ∧
    (mkPRMessage a b c d e sb tb u).header.title ≠ "" ∧
    (mkPRMessage a b c d e sb tb u).header.imageUrl ≠ "" := by
  refine ⟨?_, ?_, ?_⟩
  · simp only [mkPRMessage]
    split <;> simp
  · exact str_append_ne_empty _ _ (str_append_ne_empty _ _ (by decide))
  · show ("https://img.icons8.com/fluent/48/000000/pull-request.png" : String) ≠ ""
    decide

theorem formatCommented_wf (a b c d e : Json) (m : ChatMessage)
    (h : formatCommented a b c d e = .ok (some m)) :
    m.widgets ≠ [] ∧ m.header.title ≠ "" ∧ m.header.imageUrl ≠ "" := by
  unfold formatCommented at h
  repeat' split at h
  all_goals first
    | (simp at h; done)
    | (injection h with h; injection h with h; subst h; exact mkCommentMessage_wf _ _ _ _ _ _ _ _)

theorem formatPRCreated_wf (a b : Json) (m : ChatMessage)
    (h : formatPRCreated a b = .ok (some m)) :
    m.widgets ≠ [] ∧ m.header.title ≠ "" ∧ m.header.imageUrl ≠ "" := by
  unfold formatPRCreated at h
  repeat' split at h
  all_goals first
    | (simp at h; done)
    | (injection h with h; injection h with h; subst h; exact mkPRMessage_wf _ _ _ _ _ _ _ _)

/-- C6: whatever the payload, a produced Chat Message is fully formed: a
header with a non-empty title and the fixed icon, and a non-empty widget
list.  The alternative is no message at all (or an exception the handler
maps to 500); never a partly built card. -/
theorem c6_message_well_formed (payload : Json) (m : ChatMessage)
    (hf : format_ado_event_card payload = .ok (some m)) :
    m.widgets ≠ [] ∧ m.header.title ≠ "" ∧ m.header.imageUrl ≠ "" := by
  unfold format_ado_event_card at hf
  repeat' split at hf
  all_goals first
    | exact formatCommented_wf _ _ _ _ _ _ hf
    | exact formatPRCreated_wf _ _ _ hf
    | simp at hf

/-- C6 witness: the minimal PR payload produces a fully formed card. -/
theorem c6_message_well_formed_witness :
    prMinimalMsg.widgets ≠ [] ∧ prMinimalMsg.header.title ≠ "" ∧
      prMinimalMsg.header.imageUrl ≠ "" :=
  c6_message_well_formed (Json.obj [("eventType", .str "git.pullrequest.created")])
    prMinimalMsg (by rfl)

/-! ## C3 -/

/-- A defaulted lookup of a well-typed optional string field is a
string. -/
theorem getD_str_of_okStr (o : Option Json) (d : String)
    (h : okStrOpt o = true) : ∃ s, o.getD (.str d) = .str s := by
  cases o with
  | none => exact ⟨d, rfl⟩
  | some v =>
    cases v with
    | str s => exact ⟨s, rfl⟩
    | null => simp [okStrOpt] at h
    | bool b => simp [okStrOpt] at h
    | num n => simp [okStrOpt] at h
    | arr xs => simp [okStrOpt] at h
    | obj ys => simp [okStrOpt] at h

/-- The project name resolution never raises when the fields dict and the
resourceContainers path are well-typed. -/
theorem resolveProjectName_ok (fs : List (String × Json)) (flds : Json)
    (hflds : isObj flds = true)
    (hrc : isObj (fieldD (.obj fs) "resourceContainers" (.obj [])) = true)
    (hproj : isObj (fieldD (fieldD (.obj fs) "resourceContainers" (.obj []))
      "project" (.obj [])) = true) :
    ∃ v, resolveProjectName (.obj fs) flds = .ok v := by
  obtain ⟨ds, rfl⟩ := isObj_exists hflds
  unfold resolveProjectName
  simp only [pyGetD_obj]
  split
  · exact ⟨_, rfl⟩
  · cases hc : fs.lookup "resourceContainers" with
    | none =>
      exact ⟨.str "Unknown Project", by simp [hc, pyGetD_obj, Json.objField]⟩
    | some rcv =>
      have hrc2 : isObj rcv = true := by
        simpa [fieldD, Json.objField, hc] using hrc
      obtain ⟨rcs, rfl⟩ := isObj_exists hrc2
      cases hp : rcs.lookup "project" with
      | none =>
        exact ⟨.str "Unknown Project", by simp [hc, hp, pyGetD_obj, Json.objField]⟩
      | some pv =>
        have hp2 : isObj pv = true := by
          simpa [fieldD, Json.objField, hc, hp] using hproj
        obtain ⟨ps, rfl⟩ := isObj_exists hp2
        exact ⟨(ps.lookup "name").getD (.str "Unknown Project"),
          by simp [hc, hp, pyGetD_obj, Json.objField]⟩

/-- The PR branch never raises on a well-typed resource. -/
theorem formatPRCreated_ok (gs : List (String × Json)) (pn : Json)
    (hrepo : isObj (fieldD (.obj gs) "repository" (.obj [])) = true)
    (hrepoProj : isObj (fieldD (fieldD (.obj gs) "repository" (.obj []))
      "project" (.obj [])) = true)
    (hcrb : isObj (fieldD (.obj gs) "createdBy" (.obj [])) = true)
    (hsrc : okStrOpt ((Json.obj gs).objField "sourceRefName") = true)
    (htgt : okStrOpt ((Json.obj gs).objField "targetRefName") = true)
    (hlnks : isObj (fieldD (.obj gs) "_links" (.obj [])) = true)
    (hweb : isObj (fieldD (fieldD (.obj gs) "_links" (.obj [])) "web" (.obj [])) = true) :
    ∃ r, formatPRCreated (.obj gs) pn = .ok r := by
  obtain ⟨rps, hrp⟩ := isObj_exists
    (show isObj ((gs.lookup "repository").getD (.obj [])) = true from by
      simpa [fieldD, Json.objField] using hrepo)
  obtain ⟨pps, hpp⟩ := isObj_exists
    (show isObj ((rps.lookup "project").getD (.obj [])) = true from by
      simpa [fieldD, Json.objField, hrp] using hrepoProj)
  obtain ⟨cbs, hcb2⟩ := isObj_exists
    (show isObj ((gs.lookup "createdBy").getD (.obj [])) = true from by
      simpa [fieldD, Json.objField] using hcrb)
  obtain ⟨ss, hss⟩ := getD_str_of_okStr (gs.lookup "sourceRefName") "N/A"
    (by simpa [Json.objField] using hsrc)
  obtain ⟨ts, hts⟩ := getD_str_of_okStr (gs.lookup "targetRefName") "N/A"
    (by simpa [Json.objField] using htgt)
  obtain ⟨ls, hls⟩ := isObj_exists
    (show isObj ((gs.lookup "_links").getD (.obj [])) = true from by
      simpa [fieldD, Json.objField] using hlnks)
  obtain ⟨ws, hws⟩ := isObj_exists
    (show isObj ((ls.lookup "web").getD (.obj [])) = true from by
      simpa [fieldD, Json.objField, hls] using hweb)
  unfold formatPRCreated
  simp only [pyGetD_obj, hrp, hpp, hcb2, hss, hts, hls, hws, branchOfRef]
  split
  · exact ⟨_, rfl⟩
  · exact ⟨_, rfl⟩

/-- The comment branch never raises on well-typed message, detailed
message and resource values, whatever the gate decides. -/
theorem formatCommented_ok (ms : List (String × Json)) (dmd flds : Json)
    (gs : List (String × Json)) (pn : Json)
    (hflds : isObj flds = true)
    (hdmd : isObj dmd = true)
    (htext : okStrOpt (dmd.objField "text") = true)
    (hH : okStrOpt (flds.objField "System.History") = true)
    (hcb : isObj (fieldD flds "System.ChangedBy" (.obj [])) = true)
    (hmd : okStrOpt ((Json.obj ms).objField "markdown") = true)
    (hht : okStrOpt ((Json.obj ms).objField "html") = true)
    (hlnks : isObj (fieldD (.obj gs) "_links" (.obj [])) = true)
    (hlh : isObj (fieldD (fieldD (.obj gs) "_links" (.obj [])) "html" (.obj [])) = true) :
    ∃ r, formatCommented (.obj ms) dmd (.obj gs) flds pn = .ok r := by
  have hct := extractCommentText_eq_spec dmd flds hdmd htext hflds hH
  have hwl := extractWorkItemLink_eq_spec (.obj ms) (.obj gs) (by rfl) hmd hht
    (by rfl) hlnks hlh
  obtain ⟨fls, rfl⟩ := isObj_exists hflds
  obtain ⟨cbs, hcbv⟩ := isObj_exists
    (show isObj ((fls.lookup "System.ChangedBy").getD (.obj [])) = true from by
      simpa [fieldD, Json.objField] using hcb)
  unfold formatCommented
  simp only [pyGetD_obj, hcbv, hct, hwl, pyContains]
  split
  · exact ⟨_, rfl⟩
  · exact ⟨_, rfl⟩

/-- C3 counterexample: an object payload whose resource field is a number
makes the formatter raise AttributeError (resource.get on an int), so the
claim that formatting never raises on any JSON payload fails; the handler
answers 500 for such a payload instead of a formatted or skipped
notification. -/
theorem c3_counterexample :
    format_ado_event_card (.obj [("resource", .num 5)]) =
      .error "AttributeError: get" := by rfl

/-- C3 (amended): the formatter terminates on every payload, and on every
payload whose accessed fields are well-typed (wellShaped) it returns
without an exception, a message or nothing; missing fields only produce
placeholder values.  On other payloads it may raise an AttributeError or
TypeError, which the handler catches and maps to status 500. -/
theorem c3_amended_no_raise_for_well_shaped (p : Json) (hw : wellShaped p) :
    ∃ r, format_ado_event_card p = .ok r := by
  unfold wellShaped at hw
  obtain ⟨hp, hres, hflds, hrc, hrcp, hmsg, hdmd, htext, hH, hcb, hmd, hht,
    hlnks, hlh, hweb, hrepo, hrepoP, hcrb, hsrc, htgt⟩ := hw
  obtain ⟨fs, rfl⟩ := isObj_exists hp
  obtain ⟨gs, hgs⟩ := isObj_exists
    (show isObj ((fs.lookup "resource").getD (.obj [])) = true from by
      simpa [fieldD, Json.objField] using hres)
  obtain ⟨ms, hms⟩ := isObj_exists
    (show isObj ((fs.lookup "message").getD (.obj [])) = true from by
      simpa [fieldD, Json.objField] using hmsg)
  obtain ⟨ds, hds⟩ := isObj_exists
    (show isObj ((fs.lookup "detailedMessage").getD (.obj [])) = true from by
      simpa [fieldD, Json.objField] using hdmd)
  have hflds2 : isObj ((gs.lookup "fields").getD (.obj [])) = true := by
    simpa [fieldD, Json.objField, hgs] using hflds
  obtain ⟨pn, hpn⟩ := resolveProjectName_ok fs ((gs.lookup "fields").getD (.obj []))
    hflds2
    (by simpa [fieldD, Json.objField] using hrc)
    (by simpa [fieldD, Json.objField] using hrcp)
  unfold format_ado_event_card
  simp only [pyGetD_obj, hgs, hms, hds, hpn]
  split
  · exact formatCommented_ok ms (.obj ds) ((gs.lookup "fields").getD (.obj [])) gs pn
      hflds2 (by rfl)
      (by simpa [fieldD, Json.objField, hds] using htext)
      (by simpa [fieldD, Json.objField, hgs] using hH)
      (by simpa [fieldD, Json.objField, hgs] using hcb)
      (by simpa [fieldD, Json.objField, hms] using hmd)
      (by simpa [fieldD, Json.objField, hms] using hht)
      (by simpa [fieldD, Json.objField, hgs] using hlnks)
      (by simpa [fieldD, Json.objField, hgs] using hlh)
  split
  · exact formatPRCreated_ok gs pn
      (by simpa [fieldD, Json.objField, hgs] using hrepo)
      (by simpa [fieldD, Json.objField, hgs] using hrepoP)
      (by simpa [fieldD, Json.objField, hgs] using hcrb)
      (by simpa [Json.objField, fieldD, hgs] using hsrc)
      (by simpa [Json.objField, fieldD, hgs] using htgt)
      (by simpa [fieldD, Json.objField, hgs] using hlnks)
      (by simpa [fieldD, Json.objField, hgs] using hweb)
  · exact ⟨none, rfl⟩

/-- C3 witness: the entirely empty object payload is well shaped; the
formatter returns nothing without an exception, every extraction having
degraded to its placeholder. -/
theorem c3_amended_no_raise_for_well_shaped_witness :
    ∃ r, format_ado_event_card (.obj []) = .ok r :=
  c3_amended_no_raise_for_well_shaped (.obj [])
    (by unfold wellShaped; refine ⟨rfl, rfl, rfl, rfl, rfl, rfl, rfl, rfl, rfl, rfl,
      rfl, rfl, rfl, rfl, rfl, rfl, rfl, rfl, rfl, rfl⟩)

end AdoWebhook
